import Mathlib

/-!
Verification of the DynamoDB MCP server (`src/server.py`): a shallow
embedding of the value codec (`serialize_dynamodb_value`,
`serialize_dynamodb_item`) and of the twelve tool handlers, each modelled
as a pure function from an explicit database gateway and its arguments to
the returned payload together with the list of remote calls it performs.
-/

namespace DynamoMCP

/--
A Python value as the tool handlers receive and return them (JSON-shaped
payloads).  `str`/`int`/`bool`/`list`/`dict`/`none` mirror the Python types
tested by `serialize_dynamodb_value`; numbers are modelled by `Int`
(`str(n)` on a Python int prints like `toString` on `Int`).  `obj s`
stands for a Python object of any other class, carrying the string `s`
that `str(value)` renders it as.
-/
inductive Value where
  | str (s : String)
  | int (n : Int)
  | bool (b : Bool)
  | list (xs : List Value)
  | dict (kvs : List (String × Value))
  | none
  | obj (s : String)
deriving Repr

/--
A DynamoDB attribute value in its tagged wire form, as built by
`serialize_dynamodb_value`: `{'S': …}`, `{'N': …}`, `{'BOOL': …}`,
`{'L': …}`, `{'M': …}`, `{'NULL': …}`.  The `NULL` tag carries the boolean
the source writes (`{'NULL': True}`).
-/
inductive AttrVal where
  | S (s : String)
  | N (s : String)
  | BOOL (b : Bool)
  | L (xs : List AttrVal)
  | M (kvs : List (String × AttrVal))
  | NULL (b : Bool)
deriving Repr

/-- Python `str` on the values the `N` branch can receive: `str(n)` for an
int renders as the decimal form, `str(True) = "True"`, `str(False) = "False"`. -/
def pyStrNum : Value → String
  | Value.int n => toString n
  | Value.bool b => if b then "True" else "False"
  | _ => ""

mutual

/--
`serialize_dynamodb_value` (src/server.py lines 38-52).  The Python
`if/elif` chain tests `str`, then `(int, float)`, then `bool`, then
`list`, then `dict`, then `None`, and otherwise falls back to
`{'S': str(value)}`.  Because Python's `bool` is a subclass of `int`,
a boolean satisfies `isinstance(value, (int, float))` and is taken by the
number branch, producing `{'N': str(value)}` = `{'N': 'True'/'False'}`;
the later `{'BOOL': value}` branch is unreachable for booleans.
-/
def serialize_dynamodb_value : Value → AttrVal
  | Value.str s => AttrVal.S s
  | Value.int n => AttrVal.N (toString n)
  | Value.bool b => AttrVal.N (if b then "True" else "False")
  | Value.list xs => AttrVal.L (serializeList xs)
  | Value.dict kvs => AttrVal.M (serializeDict kvs)
  | Value.none => AttrVal.NULL true
  | Value.obj s => AttrVal.S s

/-- The list comprehension `[serialize_dynamodb_value(v) for v in value]`. -/
def serializeList : List Value → List AttrVal
  | [] => []
  | v :: vs => serialize_dynamodb_value v :: serializeList vs

/-- The dict comprehension `{k: serialize_dynamodb_value(v) for k, v in value.items()}`. -/
def serializeDict : List (String × Value) → List (String × AttrVal)
  | [] => []
  | (k, v) :: kvs => (k, serialize_dynamodb_value v) :: serializeDict kvs

end

/-- `serialize_dynamodb_item` (src/server.py lines 32-36) on a dict input:
serialize every attribute of the item. -/
def serialize_dynamodb_item (item : List (String × Value)) : List (String × AttrVal) :=
  serializeDict item

/-- Modelled from the spec: helper for reading a `NumberVal(as decimal
string)` back, accumulating the decimal digits of the payload; any
non-digit character makes the payload fail to parse as a numeral. -/
def parseDecAux : List Char → Nat → Option Nat
  | [], acc => some acc
  | c :: cs, acc =>
    if c.isDigit then parseDecAux cs (acc * 10 + (c.toNat - 48)) else Option.none

/-- Modelled from the spec: the `N` tag carries a number "as decimal
string", so reading it back parses an optionally-negated nonempty decimal
numeral and fails on anything else. -/
def parseDecimal (s : String) : Option Int :=
  match s.data with
  | [] => Option.none
  | '-' :: [] => Option.none
  | '-' :: c :: cs => (parseDecAux (c :: cs) 0).map (fun n => -(n : Int))
  | cs => (parseDecAux cs 0).map (fun n => (n : Int))

mutual

/--
Modelled from the spec: the repository has no deserializer under `src/`
(`serialize_dynamodb_value` has no inverse in the source); the spec
describes `decode(AttributeValue) -> Value` as "the inverse" of `encode`,
with `NumberVal(as decimal string)`, so the `N` tag is read back by
parsing its decimal payload, and each other tag is mapped back to the
kind of Value it carries.  Parsing fails (returns `Option.none`) on a
payload that is not a decimal numeral.
-/
def decode : AttrVal → Option Value
  | AttrVal.S s => some (Value.str s)
  | AttrVal.N s => (parseDecimal s).map Value.int
  | AttrVal.BOOL b => some (Value.bool b)
  | AttrVal.L xs => (decodeList xs).map Value.list
  | AttrVal.M kvs => (decodeDict kvs).map Value.dict
  | AttrVal.NULL _ => some Value.none

/-- Modelled from the spec: elementwise decoding of a list attribute. -/
def decodeList : List AttrVal → Option (List Value)
  | [] => some []
  | a :: rest =>
    match decode a, decodeList rest with
    | some v, some vs => some (v :: vs)
    | _, _ => Option.none

/-- Modelled from the spec: attributewise decoding of a map attribute. -/
def decodeDict : List (String × AttrVal) → Option (List (String × Value))
  | [] => some []
  | (k, a) :: rest =>
    match decode a, decodeDict rest with
    | some v, some vs => some ((k, v) :: vs)
    | _, _ => Option.none

end

/-- A `botocore.exceptions.ClientError` raised by a remote DynamoDB call,
carrying the message that `str(e)` renders. -/
structure ClientError where
  msg : String
deriving Repr, DecidableEq

/-- `ProvisionedThroughput` parameter block. -/
structure Throughput where
  readCapacityUnits : Int
  writeCapacityUnits : Int
deriving Repr, DecidableEq

/-- One `KeySchema` entry: `{'AttributeName': …, 'KeyType': 'HASH'/'RANGE'}`. -/
structure KeySchemaElement where
  attributeName : String
  keyType : String
deriving Repr, DecidableEq

/-- One `AttributeDefinitions` entry.  `attributeType` is an `Option`
because `create_table`/`create_gsi` append `{'AttributeType': sortKeyType}`
where `sortKeyType` may be Python `None`. -/
structure AttributeDefinition where
  attributeName : String
  attributeType : Option String
deriving Repr, DecidableEq

/-- Parameters of `client.list_tables(**params)`: each key is present only
when the handler put it into `params`. -/
structure ListTablesReq where
  limit : Option Int
  exclusiveStartTableName : Option String
deriving Repr, DecidableEq

/-- Response of `client.list_tables`: `TableNames` plus the optional
`LastEvaluatedTableName` read with `.get`. -/
structure ListTablesResp where
  tableNames : List String
  lastEvaluatedTableName : Option String
deriving Repr

/-- Parameters of `client.describe_table`. -/
structure DescribeTableReq where
  tableName : String
deriving Repr, DecidableEq

/-- Response of `client.describe_table`: the handler returns
`response['Table']` verbatim, so we model it as an opaque payload. -/
structure DescribeTableResp where
  table : Value
deriving Repr

/-- Parameters of `client.create_table(**params)` as `create_table` builds them. -/
structure CreateTableReq where
  tableName : String
  keySchema : List KeySchemaElement
  attributeDefinitions : List AttributeDefinition
  billingMode : String
  provisionedThroughput : Throughput
deriving Repr, DecidableEq

/-- Response of `client.create_table`: the handler only reads
`response['TableDescription']['TableArn']`. -/
structure CreateTableResp where
  tableArn : String
deriving Repr

/-- GSI `Projection` block: `NonKeyAttributes` is added only when
`projectionType == 'INCLUDE'` and the list is truthy. -/
structure GsiProjection where
  projectionType : String
  nonKeyAttributes : Option (List String)
deriving Repr, DecidableEq

/-- The `Create` spec inside `GlobalSecondaryIndexUpdates`. -/
structure GsiCreateSpec where
  indexName : String
  keySchema : List KeySchemaElement
  projection : GsiProjection
  provisionedThroughput : Throughput
deriving Repr, DecidableEq

/-- One `GlobalSecondaryIndexUpdates` entry: `{'Create': …}` or `{'Update': …}`. -/
inductive GsiUpdate where
  | create (spec : GsiCreateSpec)
  | update (indexName : String) (throughput : Throughput)
deriving Repr, DecidableEq

/-- Parameters of `client.update_table` as used by `update_capacity`,
`create_gsi` and `update_gsi`; each caller supplies a different subset. -/
structure UpdateTableReq where
  tableName : String
  provisionedThroughput : Option Throughput
  attributeDefinitions : Option (List AttributeDefinition)
  globalSecondaryIndexUpdates : Option (List GsiUpdate)
deriving Repr, DecidableEq

/-- Response of `client.update_table`: only
`response['TableDescription']['TableArn']` is ever read (by `update_capacity`). -/
structure UpdateTableResp where
  tableArn : String
deriving Repr

/-- Parameters of `client.put_item`. -/
structure PutItemReq where
  tableName : String
  item : List (String × AttrVal)
deriving Repr

/-- Parameters of `client.get_item`. -/
structure GetItemReq where
  tableName : String
  key : List (String × AttrVal)
deriving Repr

/-- Response of `client.get_item`: the optional `Item`, an opaque payload
the handler passes through with `response.get('Item', {})`. -/
structure GetItemResp where
  item : Option Value
deriving Repr

/-- Parameters of `client.update_item(**params)`. -/
structure UpdateItemReq where
  tableName : String
  key : List (String × AttrVal)
  updateExpression : String
  expressionAttributeNames : List (String × String)
  expressionAttributeValues : List (String × AttrVal)
  returnValues : String
  conditionExpression : Option String
deriving Repr

/-- Response of `client.update_item`: the optional `Attributes` payload. -/
structure UpdateItemResp where
  attributes : Option Value
deriving Repr

/-- Parameters of `client.scan(**params)`. -/
structure ScanReq where
  tableName : String
  filterExpression : Option String
  expressionAttributeValues : Option (List (String × AttrVal))
  expressionAttributeNames : Option (List (String × String))
  limit : Option Int
deriving Repr

/-- Response of `client.scan`: the fields the handler reads with `.get`. -/
structure ScanResp where
  items : Option (List Value)
  count : Option Int
  scannedCount : Option Int
deriving Repr

/-- Parameters of `client.query(**params)`. -/
structure QueryReq where
  tableName : String
  keyConditionExpression : String
  expressionAttributeValues : List (String × AttrVal)
  expressionAttributeNames : Option (List (String × String))
  filterExpression : Option String
  limit : Option Int
deriving Repr

/-- Response of `client.query`: the fields the handler reads with `.get`. -/
structure QueryResp where
  items : Option (List Value)
  count : Option Int
deriving Repr

/-- A record of one remote DynamoDB call a handler performed, tagged with
the boto3 client method and the parameters it was given. -/
inductive RemoteCall where
  | listTables (req : ListTablesReq)
  | describeTable (req : DescribeTableReq)
  | createTable (req : CreateTableReq)
  | updateTable (req : UpdateTableReq)
  | putItem (req : PutItemReq)
  | getItem (req : GetItemReq)
  | updateItem (req : UpdateItemReq)
  | scan (req : ScanReq)
  | query (req : QueryReq)
deriving Repr

/-- The database gateway: one function per boto3 client method the
handlers use.  A remote failure is an `Except.error` carrying the
`ClientError`; this is the failure the handlers catch. -/
structure Gateway where
  listTables : ListTablesReq → Except ClientError ListTablesResp
  describeTable : DescribeTableReq → Except ClientError DescribeTableResp
  createTable : CreateTableReq → Except ClientError CreateTableResp
  updateTable : UpdateTableReq → Except ClientError UpdateTableResp
  putItem : PutItemReq → Except ClientError Unit
  getItem : GetItemReq → Except ClientError GetItemResp
  updateItem : UpdateItemReq → Except ClientError UpdateItemResp
  scan : ScanReq → Except ClientError ScanResp
  query : QueryReq → Except ClientError QueryResp

/-- Python truthiness of an `Optional[int]` argument: `if x:` is false for
`None` and for `0`. -/
def truthyIntOpt : Option Int → Bool
  | Option.none => false
  | some n => n != 0

/-- Python truthiness of an `Optional[str]` argument: `if x:` is false for
`None` and for the empty string. -/
def truthyStrOpt : Option String → Bool
  | Option.none => false
  | some s => s != ""

/-- Python truthiness of an optional dict/list argument: `if x:` is false
for `None` and for an empty collection. -/
def truthyColOpt {α : Type} : Option (List α) → Bool
  | Option.none => false
  | some xs => !xs.isEmpty

/-- Keep an optional int parameter only when truthy (`if x: params[…] = x`). -/
def keepTruthyInt (o : Option Int) : Option Int :=
  if truthyIntOpt o then o else Option.none

/-- Keep an optional string parameter only when truthy. -/
def keepTruthyStr (o : Option String) : Option String :=
  if truthyStrOpt o then o else Option.none

/-- Keep an optional dict/list parameter only when truthy. -/
def keepTruthyCol {α : Type} (o : Option (List α)) : Option (List α) :=
  if truthyColOpt o then o else Option.none

/-- The `{"error": str(e)}` payload every handler returns from its
`except ClientError` clause. -/
def errObj (e : ClientError) : Value :=
  Value.dict [("error", Value.str e.msg)]

/-- A Python `Optional[str]` rendered into a JSON payload: `None` becomes
JSON null. -/
def optStrVal : Option String → Value
  | Option.none => Value.none
  | some s => Value.str s

/-- The `params` dict that `list_tables` builds (src/server.py lines 59-63):
`Limit` and `ExclusiveStartTableName` are included only when truthy. -/
def list_tables_req (limit : Option Int) (exclusiveStartTableName : Option String) :
    ListTablesReq :=
  ⟨keepTruthyInt limit, keepTruthyStr exclusiveStartTableName⟩

/-- `list_tables` (src/server.py lines 54-71). -/
def list_tables (gw : Gateway) (limit : Option Int) (exclusiveStartTableName : Option String) :
    Value × List RemoteCall :=
  let req := list_tables_req limit exclusiveStartTableName
  (match gw.listTables req with
   | Except.ok r =>
     Value.dict [("TableNames", Value.list (r.tableNames.map Value.str)),
                 ("LastEvaluatedTableName", optStrVal r.lastEvaluatedTableName)]
   | Except.error e => errObj e,
   [RemoteCall.listTables req])

/-- `describe_table` (src/server.py lines 73-81). -/
def describe_table (gw : Gateway) (tableName : String) : Value × List RemoteCall :=
  let req : DescribeTableReq := ⟨tableName⟩
  (match gw.describeTable req with
   | Except.ok r => r.table
   | Except.error e => errObj e,
   [RemoteCall.describeTable req])

/-- The `params` dict that `create_table` builds (src/server.py lines 91-108):
the key schema starts from the partition key and, when `sortKey` is truthy,
appends the `RANGE` key and an attribute definition whose `AttributeType`
is `sortKeyType` — even when that is `None`. -/
def create_table_req (tableName partitionKey partitionKeyType : String)
    (sortKey sortKeyType : Option String) (readCapacity writeCapacity : Int) :
    CreateTableReq :=
  let ks0 := [KeySchemaElement.mk partitionKey "HASH"]
  let ad0 := [AttributeDefinition.mk partitionKey (some partitionKeyType)]
  let ksad :=
    if truthyStrOpt sortKey then
      (ks0 ++ [KeySchemaElement.mk (sortKey.getD "") "RANGE"],
       ad0 ++ [AttributeDefinition.mk (sortKey.getD "") sortKeyType])
    else (ks0, ad0)
  ⟨tableName, ksad.1, ksad.2, "PROVISIONED", ⟨readCapacity, writeCapacity⟩⟩

/-- `create_table` (src/server.py lines 83-113). -/
def create_table (gw : Gateway) (tableName partitionKey partitionKeyType : String)
    (sortKey sortKeyType : Option String) (readCapacity writeCapacity : Int) :
    Value × List RemoteCall :=
  let req := create_table_req tableName partitionKey partitionKeyType
    sortKey sortKeyType readCapacity writeCapacity
  (match gw.createTable req with
   | Except.ok r =>
     Value.dict [("status", Value.str "creating"), ("tableArn", Value.str r.tableArn)]
   | Except.error e => errObj e,
   [RemoteCall.createTable req])

/-- `update_capacity` (src/server.py lines 115-129). -/
def update_capacity (gw : Gateway) (tableName : String) (readCapacity writeCapacity : Int) :
    Value × List RemoteCall :=
  let req : UpdateTableReq :=
    ⟨tableName, some ⟨readCapacity, writeCapacity⟩, Option.none, Option.none⟩
  (match gw.updateTable req with
   | Except.ok r =>
     Value.dict [("status", Value.str "updating"), ("tableArn", Value.str r.tableArn)]
   | Except.error e => errObj e,
   [RemoteCall.updateTable req])

/-- `put_item` (src/server.py lines 131-143): serializes the item and
returns `{"status": "success"}` when the remote call succeeds. -/
def put_item (gw : Gateway) (tableName : String) (item : List (String × Value)) :
    Value × List RemoteCall :=
  let req : PutItemReq := ⟨tableName, serialize_dynamodb_item item⟩
  (match gw.putItem req with
   | Except.ok _ => Value.dict [("status", Value.str "success")]
   | Except.error e => errObj e,
   [RemoteCall.putItem req])

/-- The `Key` parameter `get_item` sends. -/
def get_item_req (tableName : String) (key : List (String × Value)) : GetItemReq :=
  ⟨tableName, serialize_dynamodb_item key⟩

/-- `get_item` (src/server.py lines 145-157): returns
`response.get('Item', {})`, i.e. the empty dict when no item came back. -/
def get_item (gw : Gateway) (tableName : String) (key : List (String × Value)) :
    Value × List RemoteCall :=
  let req := get_item_req tableName key
  (match gw.getItem req with
   | Except.ok r =>
     match r.item with
     | some it => it
     | Option.none => Value.dict []
   | Except.error e => errObj e,
   [RemoteCall.getItem req])

/-- The `params` dict that `update_item` builds (src/server.py lines 169-179):
`ConditionExpression` is added only when truthy. -/
def update_item_req (tableName : String) (key : List (String × Value))
    (updateExpression : String) (expressionAttributeNames : List (String × String))
    (expressionAttributeValues : List (String × Value))
    (conditionExpression : Option String) (returnValues : String) : UpdateItemReq :=
  ⟨tableName, serialize_dynamodb_item key, updateExpression,
   expressionAttributeNames, serialize_dynamodb_item expressionAttributeValues,
   returnValues, keepTruthyStr conditionExpression⟩

/-- `update_item` (src/server.py lines 159-184): returns
`response.get('Attributes', {})`. -/
def update_item (gw : Gateway) (tableName : String) (key : List (String × Value))
    (updateExpression : String) (expressionAttributeNames : List (String × String))
    (expressionAttributeValues : List (String × Value))
    (conditionExpression : Option String) (returnValues : String) :
    Value × List RemoteCall :=
  let req := update_item_req tableName key updateExpression expressionAttributeNames
    expressionAttributeValues conditionExpression returnValues
  (match gw.updateItem req with
   | Except.ok r =>
     match r.attributes with
     | some a => a
     | Option.none => Value.dict []
   | Except.error e => errObj e,
   [RemoteCall.updateItem req])

/-- The `params` dict that `scan_table` builds (src/server.py lines 196-205):
every optional parameter is included only when truthy, and
`ExpressionAttributeValues` is serialized. -/
def scan_table_req (tableName : String) (filterExpression : Option String)
    (expressionAttributeValues : Option (List (String × Value)))
    (expressionAttributeNames : Option (List (String × String)))
    (limit : Option Int) : ScanReq :=
  ⟨tableName, keepTruthyStr filterExpression,
   (keepTruthyCol expressionAttributeValues).map serialize_dynamodb_item,
   keepTruthyCol expressionAttributeNames,
   keepTruthyInt limit⟩

/-- `scan_table` (src/server.py lines 188-214). -/
def scan_table (gw : Gateway) (tableName : String) (filterExpression : Option String)
    (expressionAttributeValues : Option (List (String × Value)))
    (expressionAttributeNames : Option (List (String × String)))
    (limit : Option Int) : Value × List RemoteCall :=
  let req := scan_table_req tableName filterExpression expressionAttributeValues
    expressionAttributeNames limit
  (match gw.scan req with
   | Except.ok r =>
     Value.dict [("Items", Value.list (r.items.getD [])),
                 ("Count", Value.int (r.count.getD 0)),
                 ("ScannedCount", Value.int (r.scannedCount.getD 0))]
   | Except.error e => errObj e,
   [RemoteCall.scan req])

/-- The `params` dict that `query_table` builds (src/server.py lines 223-234):
`ExpressionAttributeValues` is required and always serialized; the other
optional parameters are included only when truthy. -/
def query_table_req (tableName keyConditionExpression : String)
    (expressionAttributeValues : List (String × Value))
    (expressionAttributeNames : Option (List (String × String)))
    (filterExpression : Option String) (limit : Option Int) : QueryReq :=
  ⟨tableName, keyConditionExpression, serialize_dynamodb_item expressionAttributeValues,
   keepTruthyCol expressionAttributeNames,
   keepTruthyStr filterExpression,
   keepTruthyInt limit⟩

/-- `query_table` (src/server.py lines 216-242). -/
def query_table (gw : Gateway) (tableName keyConditionExpression : String)
    (expressionAttributeValues : List (String × Value))
    (expressionAttributeNames : Option (List (String × String)))
    (filterExpression : Option String) (limit : Option Int) :
    Value × List RemoteCall :=
  let req := query_table_req tableName keyConditionExpression expressionAttributeValues
    expressionAttributeNames filterExpression limit
  (match gw.query req with
   | Except.ok r =>
     Value.dict [("Items", Value.list (r.items.getD [])),
                 ("Count", Value.int (r.count.getD 0))]
   | Except.error e => errObj e,
   [RemoteCall.query req])

/-- The `update_table` parameters `create_gsi` builds (src/server.py lines
253-279): key schema and attribute definitions mirror `create_table`
(including the `None` `AttributeType` when `sortKeyType` is omitted), and
`NonKeyAttributes` joins the projection only when `projectionType` is
`'INCLUDE'` and the list is truthy. -/
def create_gsi_req (tableName indexName partitionKey partitionKeyType : String)
    (sortKey sortKeyType : Option String) (projectionType : String)
    (nonKeyAttributes : Option (List String)) (readCapacity writeCapacity : Int) :
    UpdateTableReq :=
  let ks0 := [KeySchemaElement.mk partitionKey "HASH"]
  let ad0 := [AttributeDefinition.mk partitionKey (some partitionKeyType)]
  let ksad :=
    if truthyStrOpt sortKey then
      (ks0 ++ [KeySchemaElement.mk (sortKey.getD "") "RANGE"],
       ad0 ++ [AttributeDefinition.mk (sortKey.getD "") sortKeyType])
    else (ks0, ad0)
  let projection : GsiProjection :=
    ⟨projectionType,
     if projectionType == "INCLUDE" && truthyColOpt nonKeyAttributes then
       nonKeyAttributes
     else Option.none⟩
  ⟨tableName, Option.none, some ksad.2,
   some [GsiUpdate.create ⟨indexName, ksad.1, projection, ⟨readCapacity, writeCapacity⟩⟩]⟩

/-- `create_gsi` (src/server.py lines 244-283): ignores the response body
and reports `{"status": "creating", "indexName": …}`. -/
def create_gsi (gw : Gateway) (tableName indexName partitionKey partitionKeyType : String)
    (sortKey sortKeyType : Option String) (projectionType : String)
    (nonKeyAttributes : Option (List String)) (readCapacity writeCapacity : Int) :
    Value × List RemoteCall :=
  let req := create_gsi_req tableName indexName partitionKey partitionKeyType
    sortKey sortKeyType projectionType nonKeyAttributes readCapacity writeCapacity
  (match gw.updateTable req with
   | Except.ok _ =>
     Value.dict [("status", Value.str "creating"), ("indexName", Value.str indexName)]
   | Except.error e => errObj e,
   [RemoteCall.updateTable req])

/-- `update_gsi` (src/server.py lines 285-304). -/
def update_gsi (gw : Gateway) (tableName indexName : String)
    (readCapacity writeCapacity : Int) : Value × List RemoteCall :=
  let req : UpdateTableReq :=
    ⟨tableName, Option.none, Option.none,
     some [GsiUpdate.update indexName ⟨readCapacity, writeCapacity⟩]⟩
  (match gw.updateTable req with
   | Except.ok _ =>
     Value.dict [("status", Value.str "updating"), ("indexName", Value.str indexName)]
   | Except.error e => errObj e,
   [RemoteCall.updateTable req])

/-- The fixed message `create_lsi` returns (src/server.py line 313). -/
def lsiErrorMsg : String :=
  "Local Secondary Indexes can only be created during table creation. Use create_table with LSI specification."

/-- `create_lsi` (src/server.py lines 306-315): accepts the full argument
list but performs no remote call and returns the fixed error payload. -/
def create_lsi (_gw : Gateway) (_tableName _indexName _partitionKey _partitionKeyType : String)
    (_sortKey _sortKeyType : String) (_projectionType : String)
    (_nonKeyAttributes : Option (List String)) (_readCapacity _writeCapacity : Int) :
    Value × List RemoteCall :=
  (Value.dict [("error", Value.str lsiErrorMsg)], [])

/-- A concrete stub gateway for evaluating handlers on closed inputs:
`list_tables` sees the tables `Orders` and `Users` with no continuation
token, `put_item` succeeds, `get_item` finds no item, and the remaining
operations succeed with neutral responses. -/
def stubGW : Gateway where
  listTables := fun _ => Except.ok ⟨["Orders", "Users"], Option.none⟩
  describeTable := fun _ => Except.ok ⟨Value.dict []⟩
  createTable := fun _ => Except.ok ⟨"arn:stub"⟩
  updateTable := fun _ => Except.ok ⟨"arn:stub"⟩
  putItem := fun _ => Except.ok ()
  getItem := fun _ => Except.ok ⟨Option.none⟩
  updateItem := fun _ => Except.ok ⟨Option.none⟩
  scan := fun _ => Except.ok ⟨Option.none, Option.none, Option.none⟩
  query := fun _ => Except.ok ⟨Option.none, Option.none⟩

/-- A gateway on which every remote operation fails with the given
`ClientError`. -/
def failGW (e : ClientError) : Gateway where
  listTables := fun _ => Except.error e
  describeTable := fun _ => Except.error e
  createTable := fun _ => Except.error e
  updateTable := fun _ => Except.error e
  putItem := fun _ => Except.error e
  getItem := fun _ => Except.error e
  updateItem := fun _ => Except.error e
  scan := fun _ => Except.error e
  query := fun _ => Except.error e

/-- C1: the claimed round-trip `decode (encode v) = v` fails on the code
for booleans.  Python's `bool` is a subclass of `int`, so `True` satisfies
`isinstance(value, (int, float))` and `serialize_dynamodb_value` encodes
it as the number tag `{'N': 'True'}` (the `BOOL` branch is unreachable);
`'True'` is not a decimal numeral, so decoding cannot recover the boolean. -/
theorem serialize_bool_roundtrip_fails :
    serialize_dynamodb_value (Value.bool true) = AttrVal.N "True" ∧
    decode (serialize_dynamodb_value (Value.bool true)) = Option.none :=
  ⟨rfl, rfl⟩

/-- C2: evaluating `put_item` on the invocation
`{tableName: "Orders", item: {"id": "42", "qty": 3, "paid": true}}` against
a succeeding gateway: the handler does return `{"status": "success"}`, but
the request it sends carries `paid` under the number tag `{'N': 'True'}`
(because Python's `bool` is a subclass of `int`), not under a `BOOL` tag
as the claim states. -/
theorem put_item_orders_scenario :
    put_item stubGW "Orders"
      [("id", Value.str "42"), ("qty", Value.int 3), ("paid", Value.bool true)] =
    (Value.dict [("status", Value.str "success")],
     [RemoteCall.putItem ⟨"Orders",
        [("id", AttrVal.S "42"), ("qty", AttrVal.N "3"), ("paid", AttrVal.N "True")]⟩]) :=
  rfl

/-- C3: `serialize_dynamodb_value` is total, and any input that is not one
of the recognized kinds (an object of some other class, modelled by
`Value.obj` carrying its textual form) falls back to the string tag
holding that textual form. -/
theorem serialize_total_string_fallback :
    (∀ v : Value, ∃ a : AttrVal, serialize_dynamodb_value v = a) ∧
    (∀ s : String, serialize_dynamodb_value (Value.obj s) = AttrVal.S s) :=
  ⟨fun v => ⟨serialize_dynamodb_value v, rfl⟩, fun _ => rfl⟩

/-- C4: every tool handler that contacts the database catches a remote
failure at its own boundary and returns the `{"error": message}` payload
carrying the remote error's message, for every gateway and all arguments;
never does the failure propagate past the handler. -/
theorem handlers_wrap_remote_failure :
    (∀ gw l es e, gw.listTables (list_tables_req l es) = Except.error e →
      (list_tables gw l es).1 = errObj e) ∧
    (∀ gw tn e, gw.describeTable ⟨tn⟩ = Except.error e →
      (describe_table gw tn).1 = errObj e) ∧
    (∀ gw tn pk pkt sk skt rc wc e,
      gw.createTable (create_table_req tn pk pkt sk skt rc wc) = Except.error e →
      (create_table gw tn pk pkt sk skt rc wc).1 = errObj e) ∧
    (∀ gw tn rc wc e,
      gw.updateTable ⟨tn, some ⟨rc, wc⟩, Option.none, Option.none⟩ = Except.error e →
      (update_capacity gw tn rc wc).1 = errObj e) ∧
    (∀ gw tn item e, gw.putItem ⟨tn, serialize_dynamodb_item item⟩ = Except.error e →
      (put_item gw tn item).1 = errObj e) ∧
    (∀ gw tn key e, gw.getItem (get_item_req tn key) = Except.error e →
      (get_item gw tn key).1 = errObj e) ∧
    (∀ gw tn key ue ean eav ce rv e,
      gw.updateItem (update_item_req tn key ue ean eav ce rv) = Except.error e →
      (update_item gw tn key ue ean eav ce rv).1 = errObj e) ∧
    (∀ gw tn fe eav ean l e,
      gw.scan (scan_table_req tn fe eav ean l) = Except.error e →
      (scan_table gw tn fe eav ean l).1 = errObj e) ∧
    (∀ gw tn kce eav ean fe l e,
      gw.query (query_table_req tn kce eav ean fe l) = Except.error e →
      (query_table gw tn kce eav ean fe l).1 = errObj e) ∧
    (∀ gw tn ind pk pkt sk skt pt nka rc wc e,
      gw.updateTable (create_gsi_req tn ind pk pkt sk skt pt nka rc wc) = Except.error e →
      (create_gsi gw tn ind pk pkt sk skt pt nka rc wc).1 = errObj e) ∧
    (∀ gw tn ind rc wc e,
      gw.updateTable ⟨tn, Option.none, Option.none, some [GsiUpdate.update ind ⟨rc, wc⟩]⟩ =
        Except.error e →
      (update_gsi gw tn ind rc wc).1 = errObj e) := by
  refine ⟨?_, ?_, ?_, ?_, ?_, ?_, ?_, ?_, ?_, ?_, ?_⟩
  · intro gw l es e h; simp [list_tables, h]
  · intro gw tn e h; simp [describe_table, h]
  · intro gw tn pk pkt sk skt rc wc e h; simp [create_table, h]
  · intro gw tn rc wc e h; simp [update_capacity, h]
  · intro gw tn item e h; simp [put_item, h]
  · intro gw tn key e h; simp [get_item, h]
  · intro gw tn key ue ean eav ce rv e h; simp [update_item, h]
  · intro gw tn fe eav ean l e h; simp [scan_table, h]
  · intro gw tn kce eav ean fe l e h; simp [query_table, h]
  · intro gw tn ind pk pkt sk skt pt nka rc wc e h; simp [create_gsi, h]
  · intro gw tn ind rc wc e h; simp [update_gsi, h]

/-- C4 witness: on a gateway whose every operation fails with the error
message `boom`, each handler returns `{"error": "boom"}`. -/
theorem handlers_wrap_remote_failure_witness :
    (list_tables (failGW ⟨"boom"⟩) Option.none Option.none).1 = errObj ⟨"boom"⟩ ∧
    (describe_table (failGW ⟨"boom"⟩) "T").1 = errObj ⟨"boom"⟩ ∧
    (create_table (failGW ⟨"boom"⟩) "T" "pk" "S" Option.none Option.none 5 5).1 =
      errObj ⟨"boom"⟩ ∧
    (update_capacity (failGW ⟨"boom"⟩) "T" 5 5).1 = errObj ⟨"boom"⟩ ∧
    (put_item (failGW ⟨"boom"⟩) "T" []).1 = errObj ⟨"boom"⟩ ∧
    (get_item (failGW ⟨"boom"⟩) "T" []).1 = errObj ⟨"boom"⟩ ∧
    (update_item (failGW ⟨"boom"⟩) "T" [] "SET x = :x" [] [] Option.none "ALL_NEW").1 =
      errObj ⟨"boom"⟩ ∧
    (scan_table (failGW ⟨"boom"⟩) "T" Option.none Option.none Option.none Option.none).1 =
      errObj ⟨"boom"⟩ ∧
    (query_table (failGW ⟨"boom"⟩) "T" "id = :id" [] Option.none Option.none Option.none).1 =
      errObj ⟨"boom"⟩ ∧
    (create_gsi (failGW ⟨"boom"⟩) "T" "idx" "pk" "S" Option.none Option.none "ALL"
      Option.none 5 5).1 = errObj ⟨"boom"⟩ ∧
    (update_gsi (failGW ⟨"boom"⟩) "T" "idx" 5 5).1 = errObj ⟨"boom"⟩ :=
  ⟨handlers_wrap_remote_failure.1 (failGW ⟨"boom"⟩) Option.none Option.none ⟨"boom"⟩ rfl,
   handlers_wrap_remote_failure.2.1 (failGW ⟨"boom"⟩) "T" ⟨"boom"⟩ rfl,
   handlers_wrap_remote_failure.2.2.1 (failGW ⟨"boom"⟩) "T" "pk" "S" Option.none Option.none
     5 5 ⟨"boom"⟩ rfl,
   handlers_wrap_remote_failure.2.2.2.1 (failGW ⟨"boom"⟩) "T" 5 5 ⟨"boom"⟩ rfl,
   handlers_wrap_remote_failure.2.2.2.2.1 (failGW ⟨"boom"⟩) "T" [] ⟨"boom"⟩ rfl,
   handlers_wrap_remote_failure.2.2.2.2.2.1 (failGW ⟨"boom"⟩) "T" [] ⟨"boom"⟩ rfl,
   handlers_wrap_remote_failure.2.2.2.2.2.2.1 (failGW ⟨"boom"⟩) "T" [] "SET x = :x" [] []
     Option.none "ALL_NEW" ⟨"boom"⟩ rfl,
   handlers_wrap_remote_failure.2.2.2.2.2.2.2.1 (failGW ⟨"boom"⟩) "T" Option.none Option.none
     Option.none Option.none ⟨"boom"⟩ rfl,
   handlers_wrap_remote_failure.2.2.2.2.2.2.2.2.1 (failGW ⟨"boom"⟩) "T" "id = :id" []
     Option.none Option.none Option.none ⟨"boom"⟩ rfl,
   handlers_wrap_remote_failure.2.2.2.2.2.2.2.2.2.1 (failGW ⟨"boom"⟩) "T" "idx" "pk" "S"
     Option.none Option.none "ALL" Option.none 5 5 ⟨"boom"⟩ rfl,
   handlers_wrap_remote_failure.2.2.2.2.2.2.2.2.2.2 (failGW ⟨"boom"⟩) "T" "idx" 5 5
     ⟨"boom"⟩ rfl⟩

/-- C5: `create_lsi` returns the one fixed unsupported-operation error and
performs no remote call, for every gateway and all arguments. -/
theorem create_lsi_fixed_error_no_remote_call :
    ∀ (gw : Gateway) (tn ind pk pkt sk skt pt : String)
      (nka : Option (List String)) (rc wc : Int),
      create_lsi gw tn ind pk pkt sk skt pt nka rc wc =
        (Value.dict [("error", Value.str lsiErrorMsg)], []) :=
  fun _ _ _ _ _ _ _ _ _ _ _ => rfl

/-- C6: when the remote response carries no item, `get_item` returns the
empty mapping `{}` as a successful payload, not an error. -/
theorem get_item_absent_returns_empty :
    ∀ (gw : Gateway) (tn : String) (key : List (String × Value)),
      gw.getItem (get_item_req tn key) = Except.ok ⟨Option.none⟩ →
      (get_item gw tn key).1 = Value.dict [] := by
  intro gw tn key h
  simp [get_item, h]

/-- C6 witness: on the stub gateway, which finds no item, `get_item`
returns the empty mapping. -/
theorem get_item_absent_returns_empty_witness :
    (get_item stubGW "Orders" [("id", Value.str "42")]).1 = Value.dict [] :=
  get_item_absent_returns_empty stubGW "Orders" [("id", Value.str "42")] rfl

/-- C7: `list_tables` with no arguments against the stub gateway, which
returns the names `Orders` and `Users` and no continuation token, yields
exactly `{"TableNames": ["Orders", "Users"], "LastEvaluatedTableName": null}`. -/
theorem list_tables_orders_users_scenario :
    (list_tables stubGW Option.none Option.none).1 =
      Value.dict [("TableNames", Value.list [Value.str "Orders", Value.str "Users"]),
                  ("LastEvaluatedTableName", Value.none)] :=
  rfl

/-- C8: every handler that contacts the database performs exactly one
remote call per invocation — no retry, no pagination loop, no batching —
for every gateway and all arguments. -/
theorem handlers_one_remote_call :
    (∀ gw l es, (list_tables gw l es).2.length = 1) ∧
    (∀ gw tn, (describe_table gw tn).2.length = 1) ∧
    (∀ gw tn pk pkt sk skt rc wc,
      (create_table gw tn pk pkt sk skt rc wc).2.length = 1) ∧
    (∀ gw tn rc wc, (update_capacity gw tn rc wc).2.length = 1) ∧
    (∀ gw tn item, (put_item gw tn item).2.length = 1) ∧
    (∀ gw tn key, (get_item gw tn key).2.length = 1) ∧
    (∀ gw tn key ue ean eav ce rv,
      (update_item gw tn key ue ean eav ce rv).2.length = 1) ∧
    (∀ gw tn fe eav ean l, (scan_table gw tn fe eav ean l).2.length = 1) ∧
    (∀ gw tn kce eav ean fe l,
      (query_table gw tn kce eav ean fe l).2.length = 1) ∧
    (∀ gw tn ind pk pkt sk skt pt nka rc wc,
      (create_gsi gw tn ind pk pkt sk skt pt nka rc wc).2.length = 1) ∧
    (∀ gw tn ind rc wc, (update_gsi gw tn ind rc wc).2.length = 1) :=
  ⟨fun _ _ _ => rfl, fun _ _ => rfl, fun _ _ _ _ _ _ _ _ => rfl, fun _ _ _ _ => rfl,
   fun _ _ _ => rfl, fun _ _ _ => rfl, fun _ _ _ _ _ _ _ _ => rfl,
   fun _ _ _ _ _ _ => rfl, fun _ _ _ _ _ _ _ => rfl,
   fun _ _ _ _ _ _ _ _ _ _ _ => rfl, fun _ _ _ _ _ => rfl⟩

/-- C9: a `limit` argument explicitly set to `0` is falsy in Python, so
`list_tables`, `scan_table` and `query_table` omit the `Limit` parameter
from the remote request and behave exactly as when `limit` is absent. -/
theorem limit_zero_same_as_absent :
    (∀ es, (list_tables_req (some 0) es).limit = Option.none) ∧
    (∀ gw es, list_tables gw (some 0) es = list_tables gw Option.none es) ∧
    (∀ tn fe eav ean, (scan_table_req tn fe eav ean (some 0)).limit = Option.none) ∧
    (∀ gw tn fe eav ean,
      scan_table gw tn fe eav ean (some 0) = scan_table gw tn fe eav ean Option.none) ∧
    (∀ tn kce eav ean fe, (query_table_req tn kce eav ean fe (some 0)).limit = Option.none) ∧
    (∀ gw tn kce eav ean fe,
      query_table gw tn kce eav ean fe (some 0) =
        query_table gw tn kce eav ean fe Option.none) :=
  ⟨fun _ => rfl, fun _ _ => rfl, fun _ _ _ _ => rfl, fun _ _ _ _ _ => rfl,
   fun _ _ _ _ _ => rfl, fun _ _ _ _ _ _ => rfl⟩

/-- C10: with a (truthy) `sortKey` and `sortKeyType` omitted (`None`),
`create_table` and `create_gsi` do not reject the call: each builds and
sends a remote request whose attribute definitions contain the sort-key
entry with a null attribute type. -/
theorem sortKey_without_type_sends_null_attr :
    ∀ (gw : Gateway) (tn pk pkt sk : String) (rc wc : Int), sk ≠ "" →
      ((create_table_req tn pk pkt (some sk) Option.none rc wc).attributeDefinitions =
         [⟨pk, some pkt⟩, ⟨sk, Option.none⟩] ∧
       (create_table gw tn pk pkt (some sk) Option.none rc wc).2 =
         [RemoteCall.createTable (create_table_req tn pk pkt (some sk) Option.none rc wc)]) ∧
      (∀ (ind pt : String) (nka : Option (List String)),
        (create_gsi_req tn ind pk pkt (some sk) Option.none pt nka rc wc).attributeDefinitions =
          some [⟨pk, some pkt⟩, ⟨sk, Option.none⟩] ∧
        (create_gsi gw tn ind pk pkt (some sk) Option.none pt nka rc wc).2 =
          [RemoteCall.updateTable
            (create_gsi_req tn ind pk pkt (some sk) Option.none pt nka rc wc)]) := by
  intro gw tn pk pkt sk rc wc h
  have hsk : truthyStrOpt (some sk) = true := by simpa [truthyStrOpt] using h
  refine ⟨⟨?_, rfl⟩, fun ind pt nka => ⟨?_, rfl⟩⟩
  · simp [create_table_req, hsk]
  · simp [create_gsi_req, hsk]

/-- C10 witness: a concrete `create_table` and `create_gsi` invocation with
`sortKey = "sk"` and no `sortKeyType` sends attribute definitions whose
sort-key entry has a null attribute type. -/
theorem sortKey_without_type_sends_null_attr_witness :
    (create_table_req "T" "pk" "S" (some "sk") Option.none 5 5).attributeDefinitions =
      [⟨"pk", some "S"⟩, ⟨"sk", Option.none⟩] ∧
    (create_gsi_req "T" "idx" "pk" "S" (some "sk") Option.none "ALL"
        Option.none 5 5).attributeDefinitions =
      some [⟨"pk", some "S"⟩, ⟨"sk", Option.none⟩] :=
  ⟨(sortKey_without_type_sends_null_attr stubGW "T" "pk" "S" "sk" 5 5 (by decide)).1.1,
   ((sortKey_without_type_sends_null_attr stubGW "T" "pk" "S" "sk" 5 5
      (by decide)).2 "idx" "ALL" Option.none).1⟩

end DynamoMCP
